import Mathlib

/-!
A shallow embedding of the conversational agent's memory and persona
pipeline: the memory write rules (`src/memory/memoryWriteRules.js`), the
persona manager, the identity consistency validator, the long-term memory
merge (`src/memory/memoryManager.js`), the conversation orchestrator
(`src/orchestrator/conversationOrchestrator.js`) and the HTTP route guard
(`src/index.js`), together with theorems settling the specified properties.

The source matches utterances with JavaScript regular expressions.  They
are embedded through a small backtracking matcher (`JsRegex`) supporting
exactly the constructs appearing in the source patterns: literals
(compared case-insensitively, since every source pattern carries the `i`
flag or is applied to a lowercased string), character classes, `.`, `\s`,
`\b`, `^`, `$`, alternation, greedy and lazy repetition, option, and
numbered capturing groups.  Matching is leftmost with ordered alternation
and greedy backtracking, as in JavaScript.
-/

namespace JsRegex

/-- JS `\w` word characters: ASCII letters, digits and underscore. -/
def isWordChar (c : Char) : Bool := c.isAlphanum || c == '_'

/-- JS `\s` whitespace (the ASCII part, which covers all inputs considered). -/
def isSpaceChar (c : Char) : Bool :=
  c == ' ' || c == '\t' || c == '\n' || c == '\r' || c == Char.ofNat 11 || c == Char.ofNat 12

/-- The apostrophe characters appearing in the source classes. -/
def isApoChar (c : Char) : Bool := c == Char.ofNat 39 || c == Char.ofNat 8217

/-- Abstract syntax of the regular expressions used by the source. -/
inductive Regex where
  | eps
  | lit (c : Char)
  | anyc
  | cpred (p : Char → Bool)
  | wordB
  | bos
  | eos
  | seq (a b : Regex)
  | alt (a b : Regex)
  | star (a : Regex)
  | lstar (a : Regex)
  | opt (a : Regex)
  | grp (i : Nat) (a : Regex)
deriving Inhabited

/-- Sequence a list of regexes. -/
def rcat (l : List Regex) : Regex := l.foldr .seq .eps

/-- Ordered alternation of a nonempty list of regexes. -/
def ralts : List Regex → Regex
  | [] => .eps
  | [r] => r
  | r :: rs => .alt r (ralts rs)

/-- A literal string (stored lowercase; matching lowercases the input char). -/
def rstr (s : String) : Regex := rcat (s.data.map .lit)

/-- Greedy `+`. -/
def rplus (r : Regex) : Regex := .seq r (.star r)

/-- Lazy `+?`. -/
def rlazyPlus (r : Regex) : Regex := .seq r (.lstar r)

/-- `\s+` -/
def wsp : Regex := rplus (.cpred isSpaceChar)

/-- `\s*` -/
def wss : Regex := .star (.cpred isSpaceChar)

/-- `['’]?` -/
def apoOpt : Regex := .opt (.cpred isApoChar)

/-- `.*` (greedy) -/
def dotStar : Regex := .star .anyc

/-- `.+` (greedy) -/
def dotPlus : Regex := rplus .anyc

/-- Number of syntax nodes, used to compute a sufficient fuel. -/
def rsize : Regex → Nat
  | .eps | .lit _ | .anyc | .cpred _ | .wordB | .bos | .eos => 1
  | .seq a b | .alt a b => 1 + rsize a + rsize b
  | .star a | .lstar a | .opt a | .grp _ a => 1 + rsize a

/-- Captured groups: group index paired with the captured text, most
recent capture first (lookups take the first hit). -/
abbrev Caps := List (Nat × String)

def isWordOpt : Option Char → Bool
  | none => false
  | some c => isWordChar c

/-- The characters of `s` that precede the suffix `rest` of `s`. -/
def consumedStr (s rest : List Char) : String :=
  String.mk (s.take (s.length - rest.length))

/-- Backtracking matcher in continuation-passing style.  `prev` is the
character immediately before the current position (for `\b` and `^`),
`caps` the captures recorded on the current path.  The continuation
receives the state after the node has matched.  Greedy `star` tries the
longer match first; lazy `lstar` tries the continuation first.  Empty
repetition steps terminate the loop, as in JavaScript. -/
def runM (fuel : Nat) (r : Regex) (prev : Option Char) (s : List Char) (caps : Caps)
    (k : Option Char → List Char → Caps → Option (Option Char × List Char × Caps)) :
    Option (Option Char × List Char × Caps) :=
  match fuel with
  | 0 => none
  | fuel + 1 =>
    match r with
    | .eps => k prev s caps
    | .lit c =>
      match s with
      | [] => none
      | d :: rest => if d.toLower == c then k (some d) rest caps else none
    | .anyc =>
      match s with
      | [] => none
      | d :: rest => if d == '\n' then none else k (some d) rest caps
    | .cpred p =>
      match s with
      | [] => none
      | d :: rest => if p d.toLower then k (some d) rest caps else none
    | .wordB => if isWordOpt prev != isWordOpt s.head? then k prev s caps else none
    | .bos => if prev.isNone then k prev s caps else none
    | .eos => if s.isEmpty then k prev s caps else none
    | .seq a b => runM fuel a prev s caps (fun p2 s2 c2 => runM fuel b p2 s2 c2 k)
    | .alt a b =>
      match runM fuel a prev s caps k with
      | some res => some res
      | none => runM fuel b prev s caps k
    | .star a =>
      match runM fuel a prev s caps (fun p2 s2 c2 =>
          if s2.length < s.length then runM fuel (.star a) p2 s2 c2 k else none) with
      | some res => some res
      | none => k prev s caps
    | .lstar a =>
      match k prev s caps with
      | some res => some res
      | none => runM fuel a prev s caps (fun p2 s2 c2 =>
          if s2.length < s.length then runM fuel (.lstar a) p2 s2 c2 k else none)
    | .opt a =>
      match runM fuel a prev s caps k with
      | some res => some res
      | none => k prev s caps
    | .grp i a =>
      runM fuel a prev s caps (fun p2 s2 c2 => k p2 s2 ((i, consumedStr s s2) :: c2))

/-- Fuel sufficient for the source patterns on the given input: recursion
depth is bounded by the pattern size per consumed character. -/
def fuelFor (r : Regex) (s : List Char) : Nat := (rsize r + 2) * (s.length + 2) * 2

/-- Try a match starting exactly at the current position.  Returns the
character before the end of the match, the matched text (`match[0]`), the
captures and the remaining input. -/
def findHere (r : Regex) (prev : Option Char) (s : List Char) :
    Option (Option Char × String × Caps × List Char) :=
  match runM (fuelFor r s) r prev s [] (fun p2 s2 c2 => some (p2, s2, c2)) with
  | some (p2, rest, caps) => some (p2, consumedStr s rest, caps, rest)
  | none => none

/-- Leftmost search: try each start position from left to right. -/
def searchFrom (r : Regex) (prev : Option Char) (s : List Char) :
    Option (Option Char × String × Caps × List Char) :=
  match findHere r prev s with
  | some res => some res
  | none =>
    match s with
    | [] => none
    | d :: rest => searchFrom r (some d) rest

/-- Result of a successful JS `String.prototype.match` call. -/
structure RMatch where
  m0 : String
  caps : Caps
deriving Repr, DecidableEq

/-- `input.match(r)`: leftmost match or `none`. -/
def regexFind (r : Regex) (s : String) : Option RMatch :=
  match searchFrom r none s.data with
  | some (_, m0, caps, _) => some ⟨m0, caps⟩
  | none => none

/-- `r.test(input)`. -/
def regexTest (r : Regex) (s : String) : Bool := (regexFind r s).isSome

/-- Capture group `i` (JS `match[i]`); `none` when the group did not take
part in the match (JS `undefined`). -/
def RMatch.grp (m : RMatch) (i : Nat) : Option String :=
  (m.caps.find? (fun p => p.1 == i)).map (fun p => p.2)

/-- JS truthiness of `match[i]`: defined and nonempty. -/
def RMatch.grpTruthy (m : RMatch) (i : Nat) : Bool :=
  match m.grp i with
  | some v => !v.isEmpty
  | none => false

/-- Successive non-overlapping matches, as a JS `exec` loop over a global
regex: continue after each match, advancing one character after an empty
match. -/
def findAllAux (r : Regex) : Nat → Option Char → List Char → List RMatch
  | 0, _, _ => []
  | n + 1, prev, s =>
    match searchFrom r prev s with
    | none => []
    | some (p2, m0, caps, rest) =>
      if m0.isEmpty then
        match rest with
        | [] => [⟨m0, caps⟩]
        | d :: tl => ⟨m0, caps⟩ :: findAllAux r n (some d) tl
      else ⟨m0, caps⟩ :: findAllAux r n p2 rest

def regexFindAll (r : Regex) (s : String) : List RMatch :=
  findAllAux r (s.data.length + 1) none s.data

/-- `input.replace(r, '')` with a global regex: delete every match. -/
def replaceAllAux (r : Regex) : Nat → Option Char → List Char → List Char
  | 0, _, s => s
  | n + 1, prev, s =>
    match findHere r prev s with
    | some (p2, m0, _, rest) =>
      if m0.isEmpty then
        match s with
        | [] => []
        | d :: tl => d :: replaceAllAux r n (some d) tl
      else replaceAllAux r n p2 rest
    | none =>
      match s with
      | [] => []
      | d :: tl => d :: replaceAllAux r n (some d) tl

def regexDeleteAll (r : Regex) (s : String) : String :=
  String.mk (replaceAllAux r (s.data.length + 1) none s.data)

end JsRegex

namespace JsStr

open JsRegex

/-- Leading-segment equality of char lists. -/
def leadEq : List Char → List Char → Bool
  | [], _ => true
  | _ :: _, [] => false
  | a :: as, b :: bs => a == b && leadEq as bs

/-- `sub` occurs as a contiguous segment of `s`. -/
def hasSubList (sub : List Char) : List Char → Bool
  | [] => leadEq sub []
  | d :: tl => leadEq sub (d :: tl) || hasSubList sub tl

/-- JS `s.includes(sub)`. -/
def strHasSub (s sub : String) : Bool := hasSubList sub.data s.data

/-- JS `s.toLowerCase()` (ASCII). -/
def lowerStr (s : String) : String := String.mk (s.data.map Char.toLower)

/-- JS `s.toUpperCase()` (ASCII). -/
def upperStr (s : String) : String := String.mk (s.data.map Char.toUpper)

/-- JS `s.trim()` (ASCII whitespace). -/
def jsTrim (s : String) : String :=
  String.mk (((s.data.dropWhile isSpaceChar).reverse.dropWhile isSpaceChar).reverse)

end JsStr

/-!
## Memory Write Rules (`src/memory/memoryWriteRules.js`)
-/

namespace MemoryWriteRules

open JsRegex JsStr

/-- `[a-z]` under the `i` flag (the matcher lowercases the input char). -/
def lowAlpha : Regex := .cpred (fun c => 'a' ≤ c && c ≤ 'z')

/-- `/\b(my|the)\s+((?:[a-z]+\s+)*)(name|interest|preference|favorite|hobby|habit|job|work|location|city|country|age|birthday|birthplace|background|story|experience)\s+is\s+(.+)/i` -/
def factPat1 : Regex := rcat [.wordB,
  .grp 1 (ralts [rstr "my", rstr "the"]), wsp,
  .grp 2 (.star (rcat [rplus lowAlpha, wsp])),
  .grp 3 (ralts [rstr "name", rstr "interest", rstr "preference", rstr "favorite",
    rstr "hobby", rstr "habit", rstr "job", rstr "work", rstr "location", rstr "city",
    rstr "country", rstr "age", rstr "birthday", rstr "birthplace", rstr "background",
    rstr "story", rstr "experience"]),
  wsp, rstr "is", wsp, .grp 4 dotPlus]

/-- `/\b(i['’]?m|i['’]?am|my name['’]?s)\s+(.+)/i` -/
def factPat2 : Regex := rcat [.wordB,
  .grp 1 (ralts [rcat [rstr "i", apoOpt, rstr "m"],
                 rcat [rstr "i", apoOpt, rstr "am"],
                 rcat [rstr "my name", apoOpt, rstr "s"]]),
  wsp, .grp 2 dotPlus]

/-- `/\bi\s+(like|love|enjoy|prefer|dislike|hate)\s+(.+)/i` -/
def factPat3 : Regex := rcat [.wordB, rstr "i", wsp,
  .grp 1 (ralts [rstr "like", rstr "love", rstr "enjoy", rstr "prefer",
                 rstr "dislike", rstr "hate"]),
  wsp, .grp 2 dotPlus]

/-- `/\bi['’]?\s+(think|believe|feel|want|need|have)\s+(.+)/i` -/
def factPat4 : Regex := rcat [.wordB, rstr "i", apoOpt, wsp,
  .grp 1 (ralts [rstr "think", rstr "believe", rstr "feel", rstr "want",
                 rstr "need", rstr "have"]),
  wsp, .grp 2 dotPlus]

/-- `/\bmy\s+(opinion|thought|idea|feeling)\s+about/i` -/
def factPat5 : Regex := rcat [.wordB, rstr "my", wsp,
  .grp 1 (ralts [rstr "opinion", rstr "thought", rstr "idea", rstr "feeling"]),
  wsp, rstr "about"]

/-- `/\bi\s+(was born|live|work|study)\s+in/i` -/
def factPat6 : Regex := rcat [.wordB, rstr "i", wsp,
  .grp 1 (ralts [rstr "was born", rstr "live", rstr "work", rstr "study"]),
  wsp, rstr "in"]

/-- `/\bmy\s+(father|mother|brother|sister|friend|family)\s+(is|are|was|were)/i` -/
def factPat7 : Regex := rcat [.wordB, rstr "my", wsp,
  .grp 1 (ralts [rstr "father", rstr "mother", rstr "brother", rstr "sister",
                 rstr "friend", rstr "family"]),
  wsp, .grp 2 (ralts [rstr "is", rstr "are", rstr "was", rstr "were"])]

/-- `/\bi\s+(graduated|studied|went to school)\s+at/i` -/
def factPat8 : Regex := rcat [.wordB, rstr "i", wsp,
  .grp 1 (ralts [rstr "graduated", rstr "studied", rstr "went to school"]),
  wsp, rstr "at"]

/-- `/\bi\s+(speak|know|learn)\s+(.+\s+language)/i` -/
def factPat9 : Regex := rcat [.wordB, rstr "i", wsp,
  .grp 1 (ralts [rstr "speak", rstr "know", rstr "learn"]),
  wsp, .grp 2 (rcat [dotPlus, wsp, rstr "language"])]

/-- `/\bmy\s+(dream|goal|aspiration|plan)\s+is/i` -/
def factPat10 : Regex := rcat [.wordB, rstr "my", wsp,
  .grp 1 (ralts [rstr "dream", rstr "goal", rstr "aspiration", rstr "plan"]),
  wsp, rstr "is"]

/-- `this.factIndicators`, in source order. -/
def factIndicators : List Regex :=
  [factPat1, factPat2, factPat3, factPat4, factPat5,
   factPat6, factPat7, factPat8, factPat9, factPat10]

/-- `this.rejectionPatterns`, in source order. -/
def rejectionPatterns : List Regex :=
  [rcat [.wordB, rstr "you", wsp, rstr "saw", wsp, rstr "me"],
   rcat [.wordB, rstr "you", wsp, rstr "remember", wsp, rstr "me", wsp, rstr "from"],
   rcat [.wordB, rstr "yesterday", dotStar, rstr "you", dotStar, rstr "said"],
   rcat [.wordB, rstr "last", wsp, rstr "time", wsp, rstr "we", wsp, rstr "talked"],
   rcat [.wordB, rstr "when", wsp, rstr "we", wsp, rstr "met", wsp, rstr "before"],
   rcat [.wordB, rstr "you", wsp, rstr "knew", wsp, rstr "about"],
   rcat [.wordB, rstr "you", wsp, rstr "were", wsp, rstr "there", wsp, rstr "when"],
   rcat [.wordB, rstr "i", wsp, rstr "told", wsp, rstr "you", wsp, rstr "before"],
   rcat [.wordB, rstr "previously", wsp, rstr "you", wsp, rstr "mentioned"],
   rcat [.wordB, rstr "i", wsp, rstr "shared", wsp, rstr "with", wsp, rstr "you"],
   rcat [.wordB, rstr "you", wsp, rstr "observed", wsp, rstr "that"],
   rcat [.wordB, rstr "you", wsp, rstr "noticed", wsp, rstr "that"],
   rcat [.wordB, rstr "you", wsp, rstr "watched", wsp, rstr "me"],
   rcat [.wordB, rstr "you", wsp, rstr "met", wsp, rstr "me"],
   rcat [.wordB, rstr "you", wsp, rstr "saw", wsp, rstr "that"],
   rcat [.wordB, rstr "you", wsp,
     .grp 1 (ralts [rstr "observed", rstr "saw", rstr "witnessed", rstr "noticed",
       rstr "watched"]),
     wsp,
     .grp 2 (ralts [rstr "me", rstr "him", rstr "her", rstr "them"]), dotStar],
   rcat [.wordB, .grp 1 (ralts [rstr "you", rstr "we"]), wsp,
     .grp 2 (ralts [rstr "know", rstr "knew"]), wsp,
     .grp 3 (ralts [rstr "me", rstr "each other", rstr "eachother"])]]

/-- `this.emotionalKeywords`. -/
def emotionalKeywords : List String :=
  ["feeling", "felt", "feelings", "emotion", "emotions", "mood",
   "happy", "sad", "angry", "excited", "anxious", "depressed",
   "stressed", "overwhelmed", "lonely", "frustrated", "upset"]

/-- `containsEmotionalContent`: some keyword occurs in the lowercased input. -/
def containsEmotionalContent (input : String) : Bool :=
  emotionalKeywords.any (fun keyword => strHasSub (lowerStr input) keyword)

/-- `getFactTypeFromMatch`: keyword-class resolution of the fact type. -/
def getFactTypeFromMatch (m : String) : String :=
  let lowerMatch := lowerStr m
  if strHasSub lowerMatch "name" then "name"
  else if [("interest" : String), "like", "love", "enjoy"].any
      (fun w => strHasSub lowerMatch w) then "interest"
  else if [("preference" : String), "prefer"].any (fun w => strHasSub lowerMatch w) then
    "preference"
  else if [("job" : String), "work", "occupation"].any (fun w => strHasSub lowerMatch w) then
    "occupation"
  else if [("location" : String), "city", "country", "live"].any
      (fun w => strHasSub lowerMatch w) then "location"
  else if strHasSub lowerMatch "age" then "age"
  else "general"

/-- An extracted fact `{ type, value, original }`. -/
structure Fact where
  type : String
  value : String
  original : String
deriving Repr, DecidableEq

/-- JS `value.replace(/[.,!?]+$/, '')`: strip one trailing run of punctuation. -/
def stripTrailingPunct (s : String) : String :=
  String.mk ((s.data.reverse.dropWhile
    (fun c => c == '.' || c == ',' || c == '!' || c == '?')).reverse)

/-- `extractFact(input, pattern, matchResult)`: pick the fact value and type
from the capture groups, mirroring the source's truthiness-driven branch
chain (`match[4]`, then `match[3]`, then `match[2]`, then `match[1]`). -/
def extractFact (input : String) (pattern : Regex) (matchResult : Option RMatch) :
    Option Fact :=
  match matchResult.orElse (fun _ => regexFind pattern input) with
  | none => none
  | some m =>
    let pick : Option String × String :=
      if m.grpTruthy 4 then
        (some (jsTrim ((m.grp 4).getD "")), getFactTypeFromMatch (lowerStr ((m.grp 3).getD "")))
      else if m.grpTruthy 3 then
        (some (jsTrim ((m.grp 3).getD "")), getFactTypeFromMatch (lowerStr ((m.grp 2).getD "")))
      else if m.grpTruthy 2 then
        (some (jsTrim ((m.grp 2).getD "")), getFactTypeFromMatch m.m0)
      else if m.grpTruthy 1 && !m.grpTruthy 2 then
        if (m.grp 1).getD "" != m.m0 then
          (some (jsTrim ((m.grp 1).getD "")), getFactTypeFromMatch m.m0)
        else (none, "general")
      else (none, "general")
    match pick.1 with
    | some v =>
      if v.isEmpty then none
      else some { type := pick.2, value := stripTrailingPunct v, original := input }
    | none => none

/-- The decision object returned by `shouldStoreInLongTermMemory`. -/
structure Decision where
  shouldStore : Bool
  reason : String
  type : String
  fact : Option Fact := none
deriving Repr, DecidableEq

def rejectionDecision : Decision :=
  { shouldStore := false,
    reason := "Contains reference to unverified past interactions or observations",
    type := "rejection_pattern" }

def emotionalDecision : Decision :=
  { shouldStore := false,
    reason := "Emotional expression - should be treated as temporary state",
    type := "emotional" }

def ambiguousDecision : Decision :=
  { shouldStore := false,
    reason := "Statement is not a clear user-declared fact",
    type := "ambiguous" }

def factDecision (f : Fact) : Decision :=
  { shouldStore := true, reason := "Contains user-declared fact", type := "fact",
    fact := some f }

/-- First fact-indicator pattern matching the input, with its match. -/
def firstFactMatch (input : String) : Option (Regex × RMatch) :=
  factIndicators.findSome? (fun p => (regexFind p input).map (fun m => (p, m)))

/-- Code shared by the two paths that fall through the fact-indicating
block: emotional venting check, then the ambiguous default. -/
def fallThroughDecision (input : String) : Decision :=
  if containsEmotionalContent input then emotionalDecision else ambiguousDecision

/-- `shouldStoreInLongTermMemory`: rejection patterns first, then the
first matching fact indicator (with emotional override on the extracted
value), then emotional venting, then the ambiguous default. -/
def shouldStoreInLongTermMemory (input : String) : Decision :=
  if rejectionPatterns.any (fun pattern => regexTest pattern input) then
    rejectionDecision
  else
    match firstFactMatch input with
    | some (pattern, m) =>
      match extractFact input pattern (some m) with
      | some extractedFact =>
        if containsEmotionalContent extractedFact.value then emotionalDecision
        else factDecision extractedFact
      | none => fallThroughDecision input
    | none => fallThroughDecision input

end MemoryWriteRules

namespace MemoryWriteRules

open JsRegex JsStr

/-- `isSelfReferential`: the source patterns, in order. -/
def selfReferentialPatterns : List Regex :=
  [rcat [rstr "you", wsp, .grp 1 (ralts [rstr "know", rstr "knew", rstr "remember",
     rstr "recall", rstr "understand"])],
   rcat [rstr "you", wsp, .grp 1 (ralts [rstr "saw", rstr "witnessed", rstr "observed"])],
   rcat [rstr "we", wsp, .grp 1 (ralts [rstr "met", rstr "talked", rstr "spoke",
     rstr "interacted"])],
   rstr "previous",
   rstr "earlier",
   rstr "before",
   rstr "yesterday",
   rcat [rstr "last", dotStar, rstr "time"]]

def isSelfReferential (fact : String) : Bool :=
  selfReferentialPatterns.any (fun pattern => regexTest pattern fact)

/-- `hasTemporalIssues`: future predictions presented as facts. -/
def futurePatterns : List Regex :=
  [rcat [rstr "will", wsp, rstr "be"],
   rcat [rstr "going", wsp, rstr "to", wsp, rstr "be"],
   rcat [rstr "will", wsp, rstr "happen"],
   rcat [rstr "in", wsp, rstr "the", wsp, rstr "future"]]

def hasTemporalIssues (fact : String) : Bool :=
  futurePatterns.any (fun pattern => regexTest pattern fact)

/-- A JS profile value: either a string or an array of strings (the two
shapes stored by the fact extractors). -/
inductive PVal where
  | s (v : String)
  | arr (vs : List String)
deriving Repr, DecidableEq

/-- JS `value.toString()`. -/
def PVal.toStr : PVal → String
  | .s v => v
  | .arr vs => String.intercalate "," vs

/-- JS truthiness of a profile value (`[]` is truthy, `""` is falsy). -/
def PVal.truthy : PVal → Bool
  | .s v => !v.isEmpty
  | .arr _ => true

/-- A fact candidate as passed to `validateMemoryFact` (the callers pass
either an extracted fact or a `{ type: key, value }` temporary object). -/
structure FactCand where
  type : String := ""
  value : PVal
deriving Repr, DecidableEq

/-- The `{ isValid, reason }` result of `validateMemoryFact`. -/
structure Validation where
  isValid : Bool
  reason : String
deriving Repr, DecidableEq

/-- `validateMemoryFact(fact)`: missing/empty, length bounds (on the
lowercased string form), self-referential phrasing, future-tense phrasing,
in source order. -/
def validateMemoryFact (fact : Option FactCand) : Validation :=
  match fact with
  | none => { isValid := false, reason := "Fact is empty or invalid" }
  | some f =>
    if !f.value.truthy then { isValid := false, reason := "Fact is empty or invalid" }
    else
      let factStr := lowerStr f.value.toStr
      if factStr.length < 2 then { isValid := false, reason := "Fact is too short" }
      else if factStr.length > 200 then { isValid := false, reason := "Fact is too long" }
      else if isSelfReferential factStr then
        { isValid := false, reason := "Fact contains self-referential or impossible claim" }
      else if hasTemporalIssues factStr then
        { isValid := false, reason := "Fact contains temporal inconsistency" }
      else { isValid := true, reason := "Fact appears valid" }

end MemoryWriteRules

/-!
## Persona profile and `PersonaManager` (`src/config/personaManager.js`)
-/

namespace PersonaMgr

open JsStr

/-- The persona configuration document (loaded once at process start). -/
structure Persona where
  name : String
  identity : String
  never_claims : List String
  forbidden_outputs : List String
  tone_defaults : List (String × String) := []

/-- A violation reported by `PersonaManager.validateResponse`. -/
structure PMViolation where
  type : String
  message : String
  phrase : String
deriving Repr, DecidableEq

/-- The `{ isValid, violations }` part of the `validateResponse` result. -/
structure PMValidation where
  isValid : Bool
  violations : List PMViolation
deriving Repr, DecidableEq

/-- `validateResponse(response)`: case-insensitive substring scan of the
response against the forbidden-output list and the never-claim list. -/
def validateResponse (persona : Persona) (response : String) : PMValidation :=
  let forbiddenViolations := persona.forbidden_outputs.filterMap (fun forbidden =>
    if strHasSub (lowerStr response) (lowerStr forbidden) then
      some { type := "forbidden_output",
             message := "Response contains forbidden phrase: " ++ forbidden,
             phrase := forbidden }
    else none)
  let neverViolations := persona.never_claims.filterMap (fun neverClaim =>
    if strHasSub (lowerStr response) (lowerStr neverClaim) then
      some { type := "never_claim_violation",
             message := "Response makes claim it should never make: " ++ neverClaim,
             phrase := neverClaim }
    else none)
  let violations := forbiddenViolations ++ neverViolations
  { isValid := violations.isEmpty, violations := violations }

/-- `getToneContext(emotionalContext)`: the tone text for the label, with
JS `||` fallback to the `neutral` entry (and to JS `undefined`, rendered
as the string "undefined", when that is also absent). -/
def toneOf (persona : Persona) (ctx : String) : String :=
  let neutral := ((persona.tone_defaults.find? (fun p => p.1 == "neutral")).map
    (fun p => p.2)).getD "undefined"
  match persona.tone_defaults.find? (fun p => p.1 == ctx) with
  | some p => if p.2.isEmpty then neutral else p.2
  | none => neutral

def getToneContext (persona : Persona) (emotionalContext : String) : String :=
  "TONE_GUIDELINES: Respond in a " ++ toneOf persona emotionalContext ++ " manner. "

/-- `getSystemPrompt()`. -/
def getSystemPrompt (persona : Persona) : String :=
  "\nPERSONA_IDENTITY: You are " ++ persona.name ++ ", " ++ persona.identity ++
  ".\nNEVER_CLAIMS: You must never claim or imply: " ++
  String.intercalate ", " persona.never_claims ++
  ". \nFORBIDDEN_OUTPUTS: Never say: " ++
  String.intercalate ", " persona.forbidden_outputs ++
  ".\nRemember: You are a digital companion, not a physical being. You can only remember what users explicitly tell you in this conversation or what is stored in your memory system.\n"

end PersonaMgr

/-!
## Identity Consistency Validator (`src/utils/identityValidator.js`)
-/

namespace IdentityValidator

open JsRegex JsStr PersonaMgr

/-- A violation record `{ type, message, severity, ...context }`. -/
structure Violation where
  type : String
  message : String
  severity : String
  mentionedName : Option String := none
  expectedName : Option String := none
  forbiddenPhrase : Option String := none
  violatedClaim : Option String := none
deriving Repr, DecidableEq

/-- The `{ isValid, violations }` result of one validation rule (the
source also carries a numeric `confidence`, which no caller reads and
which is omitted here). -/
structure RuleResult where
  isValid : Bool
  violations : List Violation
deriving Repr, DecidableEq

/-- The memory object handed to `validate`; the validator only inspects
the `longTerm` member (JS truthiness: any object, even empty, is truthy,
so `none` models an absent `longTerm` field). -/
structure MemorySnapshot where
  longTerm : Option (List (String × MemoryWriteRules.PVal)) := none

/-- `validateIdentityAlignment`: AI-model disclaimers and capability
overreach (the source also computes `identityKeywords`, which it never
uses). -/
def validateIdentityAlignment (response : String) : RuleResult :=
  let responseLower := lowerStr response
  let contradictions :=
    (if strHasSub responseLower "i am an ai" || strHasSub responseLower "i am a language model"
     then
      [{ type := "identity_mismatch",
         message := "Response contradicts persona by identifying as an AI model",
         severity := "high" : Violation }]
     else []) ++
    (if strHasSub responseLower "i can see" || strHasSub responseLower "i can observe" ||
        strHasSub responseLower "i watched" || strHasSub responseLower "i witnessed" then
      [{ type := "capability_mismatch",
         message := "Response claims capabilities outside persona scope",
         severity := "high" : Violation }]
     else [])
  { isValid := contradictions.isEmpty, violations := contradictions }

/-- `[a-zA-Z]` under the `i`-flagged pattern (input chars are lowercased). -/
def alphaCh : Regex := .cpred (fun c => 'a' ≤ c && c ≤ 'z')

/-- `/(?:^|\W)(?:i['’]?m\s+([a-zA-Z]+)|i['’]?\s*(?:am|call|name|go by)\s+([a-zA-Z]+)|my\s*name\s*is\s+([a-zA-Z]+))/gi` -/
def namePattern : Regex :=
  rcat [ralts [.bos, .cpred (fun c => !isWordChar c)],
    ralts [rcat [rstr "i", apoOpt, rstr "m", wsp, .grp 1 (rplus alphaCh)],
           rcat [rstr "i", apoOpt, wss,
             ralts [rstr "am", rstr "call", rstr "name", rstr "go by"],
             wsp, .grp 2 (rplus alphaCh)],
           rcat [rstr "my", wss, rstr "name", wss, rstr "is", wsp, .grp 3 (rplus alphaCh)]]]

/-- `isCommonPronoun`. -/
def isCommonPronoun (word : String) : Bool :=
  [("me" : String), "my", "mine", "i", "you", "your", "yours", "we", "our", "us"].any
    (fun p => lowerStr word == p)

/-- `validateNameConsistency`: every self-name assertion in the response
(global `exec` loop) is compared with the persona name. -/
def validateNameConsistency (persona : Persona) (response : String) : RuleResult :=
  let responseLower := lowerStr response
  let expectedNameLower := lowerStr persona.name
  let violations := (regexFindAll namePattern responseLower).filterMap (fun m =>
    let mentionedName :=
      match m.grp 1 with
      | some n => if !n.isEmpty then some n else
          (match m.grp 2 with
           | some n2 => if !n2.isEmpty then some n2 else
               (m.grp 3).bind (fun n3 => if !n3.isEmpty then some n3 else none)
           | none => (m.grp 3).bind (fun n3 => if !n3.isEmpty then some n3 else none))
      | none =>
          match m.grp 2 with
          | some n2 => if !n2.isEmpty then some n2 else
              (m.grp 3).bind (fun n3 => if !n3.isEmpty then some n3 else none)
          | none => (m.grp 3).bind (fun n3 => if !n3.isEmpty then some n3 else none)
    match mentionedName with
    | some n =>
      if n != expectedNameLower && !isCommonPronoun n then
        some { type := "name_inconsistency",
               message := "Response incorrectly identifies as another name instead of " ++
                 persona.name,
               severity := "high",
               mentionedName := some n,
               expectedName := some persona.name : Violation }
      else none
    | none => none)
  { isValid := violations.isEmpty, violations := violations }

/-- `validateOriginClaims`: physical presence, sensory capability and
temporal continuity claims. -/
def validateOriginClaims (response : String) : RuleResult :=
  let responseLower := lowerStr response
  let violations :=
    (if strHasSub responseLower "i am" && strHasSub responseLower "here" &&
        strHasSub responseLower "in person" then
      [{ type := "physical_presence_claim",
         message := "Response incorrectly claims physical presence",
         severity := "high" : Violation }]
     else []) ++
    (if strHasSub responseLower "i see" || strHasSub responseLower "i hear" ||
        strHasSub responseLower "i notice you" || strHasSub responseLower "i observe you" then
      [{ type := "sensory_capability_claim",
         message := "Response claims sensory capabilities it does not have",
         severity := "high" : Violation }]
     else []) ++
    (if strHasSub responseLower "yesterday" || strHasSub responseLower "last time" ||
        strHasSub responseLower "before we talked" then
      [{ type := "temporal_continuity_claim",
         message := "Response claims continuity with unrecorded interactions",
         severity := "medium" : Violation }]
     else [])
  { isValid := violations.isEmpty, violations := violations }

/-- The literal `memoryClaimPatterns` (lowercase literal regexes tested
against the lowercased response, hence plain substring tests). -/
def memoryClaimPatterns : List String :=
  ["do you remember when", "earlier you said", "previously mentioned",
   "last time we talked", "i told you about", "i remember when you",
   "i recall when you", "i remember you saying", "i remember you telling me",
   "i remember you mentioning"]

/-- `validateMemoryClaims`: when a `longTerm` object is present, each
matching memory-claim pattern yields a violation.  (The source computes
`knownFacts` from the snapshot keys but never consults it.) -/
def validateMemoryClaims (response : String) (memory : MemorySnapshot) : RuleResult :=
  let responseLower := lowerStr response
  let violations :=
    match memory.longTerm with
    | some _ =>
      memoryClaimPatterns.filterMap (fun pattern =>
        if strHasSub responseLower pattern then
          some { type := "unverified_memory_claim",
                 message := "Response claims to remember unrecorded information",
                 severity := "high" : Violation }
        else none)
    | none => []
  { isValid := violations.isEmpty, violations := violations }

/-- `validateForbiddenStatements`: forbidden-output scan then never-claim
scan, both case-insensitive substring matches. -/
def validateForbiddenStatements (persona : Persona) (response : String) : RuleResult :=
  let responseLower := lowerStr response
  let forbiddenHits := persona.forbidden_outputs.filterMap (fun forbidden =>
    if strHasSub responseLower (lowerStr forbidden) then
      some { type := "forbidden_statement",
             message := "Response contains forbidden phrase: " ++ forbidden,
             severity := "high",
             forbiddenPhrase := some forbidden : Violation }
    else none)
  let neverHits := persona.never_claims.filterMap (fun neverClaim =>
    if strHasSub responseLower (lowerStr neverClaim) then
      some { type := "never_claim_violation",
             message := "Response violates never claim: " ++ neverClaim,
             severity := "high",
             violatedClaim := some neverClaim : Violation }
    else none)
  let violations := forbiddenHits ++ neverHits
  { isValid := violations.isEmpty, violations := violations }

/-- A validation rule: `{ name, validate }`.  A rule body that throws is
modelled by returning `Except.error`, which `validateRules` below handles
exactly as the source's `try/catch` does. -/
structure ValidationRule where
  name : String
  validate : String → MemorySnapshot → Except String RuleResult

/-- `buildValidationRules()`: the fixed battery, in source order.  The
translated rule bodies are total, so they always return `Except.ok`. -/
def buildValidationRules (persona : Persona) : List ValidationRule :=
  [{ name := "identity_alignment",
     validate := fun response _ => .ok (validateIdentityAlignment response) },
   { name := "name_consistency",
     validate := fun response _ => .ok (validateNameConsistency persona response) },
   { name := "origin_claims",
     validate := fun response _ => .ok (validateOriginClaims response) },
   { name := "memory_claims",
     validate := fun response memory => .ok (validateMemoryClaims response memory) },
   { name := "forbidden_statements",
     validate := fun response _ => .ok (validateForbiddenStatements persona response) }]

/-- The comprehensive validation report. -/
structure Report where
  overallValid : Bool
  totalViolations : Nat
  violationsByType : List (String × List Violation)
  ruleResults : List (String × RuleResult)
deriving Repr, DecidableEq

/-- Group a violation into the by-type map (append to an existing key,
otherwise add the key at the end, mirroring JS object insertion order). -/
def groupAdd (acc : List (String × List Violation)) (v : Violation) :
    List (String × List Violation) :=
  if acc.any (fun kv => kv.1 == v.type) then
    acc.map (fun kv => if kv.1 == v.type then (kv.1, kv.2 ++ [v]) else kv)
  else acc ++ [(v.type, [v])]

/-- The rule-result recorded by the `catch` branch of `validate`. -/
def errorRuleResult (name msg : String) : RuleResult :=
  { isValid := false,
    violations := [{ type := "validation_error",
                     message := "Error in " ++ name ++ " validation: " ++ msg,
                     severity := "critical" }] }

/-- One iteration of the rule loop inside `validate`: on success the
result is recorded and, when invalid, aggregated; on a thrown error the
`catch` branch records a `validation_error` result and clears
`overallValid` (it does not touch the aggregates). -/
def applyRule (response : String) (memory : MemorySnapshot) (acc : Report)
    (rule : ValidationRule) : Report :=
  match rule.validate response memory with
  | .ok ruleResult =>
    if ruleResult.isValid then
      { acc with ruleResults := acc.ruleResults ++ [(rule.name, ruleResult)] }
    else
      { overallValid := false,
        totalViolations := acc.totalViolations + ruleResult.violations.length,
        violationsByType := ruleResult.violations.foldl groupAdd acc.violationsByType,
        ruleResults := acc.ruleResults ++ [(rule.name, ruleResult)] }
  | .error msg =>
    { acc with
      overallValid := false,
      ruleResults := acc.ruleResults ++ [(rule.name, errorRuleResult rule.name msg)] }

/-- The loop of `validate` over an arbitrary rule battery (the source
iterates the `this.validationRules` field). -/
def validateRules (rules : List ValidationRule) (response : String)
    (memory : MemorySnapshot) : Report :=
  rules.foldl (applyRule response memory)
    { overallValid := true, totalViolations := 0, violationsByType := [], ruleResults := [] }

/-- `validate(response, memory)` with the built-in battery. -/
def validate (persona : Persona) (response : String) (memory : MemorySnapshot) : Report :=
  validateRules (buildValidationRules persona) response memory

/-- All violations recorded in a report, in rule order. -/
def Report.allViolations (r : Report) : List Violation :=
  (r.ruleResults.map (fun p => p.2.violations)).flatten

/-- JS truthiness of `violationsByType[t]` (the key is only created when a
violation of that type was grouped). -/
def Report.hasType (r : Report) (t : String) : Bool :=
  (r.violationsByType.find? (fun kv => kv.1 == t)).isSome

/-- `generateCorrection(originalResponse, validationResults)`. -/
def generateCorrection (persona : Persona) (originalResponse : String) (results : Report) :
    String :=
  if results.overallValid then originalResponse
  else if results.hasType "forbidden_statement" then
    "I'm " ++ persona.name ++ ", " ++ persona.identity ++
      ". I'm here to have a helpful conversation."
  else if results.hasType "identity_mismatch" then
    "Hello! I'm " ++ persona.name ++ ", " ++ persona.identity ++
      ". How can I assist you today?"
  else
    "I'm " ++ persona.name ++ ", " ++ persona.identity ++
      ". I'm here to listen and help. " ++ originalResponse

end IdentityValidator

/-!
## Long-term and short-term memory (`src/memory/memoryManager.js`)

The backing stores are embedded as explicit state: the per-user profile
(`profile_data`, one JSON object) as an association list with unique keys,
the per-session Redis list as a Lean list with the most recent message at
the head.
-/

namespace MemoryMgr

open MemoryWriteRules

/-- A user profile: fact key to value, insertion-ordered, unique keys. -/
abbrev Profile := List (String × PVal)

def lookupKey (p : Profile) (k : String) : Option PVal :=
  (p.find? (fun e => e.1 == k)).map (fun e => e.2)

/-- Overwrite one entry with the value `newFacts` holds for its key, if any. -/
def owKey (newFacts : Profile) (e : String × PVal) : String × PVal :=
  (e.1, (lookupKey newFacts e.1).getD e.2)

/-- JS object spread: the keys of `existing` keep their position (values
overwritten by `newFacts` where present); new keys are appended in order. -/
def spreadMerge (existing newFacts : Profile) : Profile :=
  existing.map (owKey newFacts) ++
  newFacts.filter (fun e => (lookupKey existing e.1).isNone)

/-- `updateLongTermMemory(userId, facts)` as a transformation of the
stored profile: each fact is validated with `validateMemoryFact` (as the
temporary object `{ type: key, value }`); rejected facts are dropped; when
no fact survives, the function returns before writing; otherwise the
surviving facts are spread over the existing profile and upserted. -/
def updateLongTermMemory (store : Profile) (facts : Profile) : Profile :=
  let filteredFacts := facts.filter (fun e =>
    (validateMemoryFact (some { type := e.1, value := e.2 })).isValid)
  if filteredFacts.isEmpty then store
  else spreadMerge store filteredFacts

/-- A short-term memory message. -/
structure Msg where
  sender : String
  content : String
  timestamp : Nat
  emotionalContext : Option String := none
deriving Repr, DecidableEq

/-- `updateShortTermMemory`: `lPush` each message in order (most recent
ends up at the head), then `lTrim 0, size-1`. -/
def updateShortTermMemory (store : List Msg) (size : Nat) (messages : List Msg) :
    List Msg :=
  (messages.foldl (fun acc m => m :: acc) store).take size

end MemoryMgr

/-!
## Conversation Orchestrator (`src/orchestrator/conversationOrchestrator.js`)

The generation backend is a parameter `llm : Nat → String → Except String
String`: call number (0 = primary generation, 1 = the corrective
regeneration) and prompt to generated text or thrown error.  The list of
prompts actually sent is returned alongside the result so that the number
of backend calls is observable.
-/

namespace Orchestrator

open JsRegex JsStr PersonaMgr IdentityValidator MemoryMgr MemoryWriteRules

/-- The orchestrator's view of one user's memory, as returned by
`getUserMemory` (episodic is a placeholder in the source). -/
structure MemState where
  shortTerm : List Msg
  longTerm : Profile
deriving Repr, DecidableEq

/-- The `memory` argument handed to the identity validator: `longTerm` is
always present on this path. -/
def toSnapshot (mem : MemState) : MemorySnapshot := { longTerm := some mem.longTerm }

/-- `validateInput(input)`. -/
structure InputValidation where
  isValid : Bool
  error : Option String := none
  input : Option String := none
deriving Repr, DecidableEq

def validateInput (input : String) : InputValidation :=
  if (jsTrim input).isEmpty then
    { isValid := false, error := some "Input cannot be empty" }
  else if input.length > 2000 then
    { isValid := false, error := some "Input too long" }
  else { isValid := true, input := some (jsTrim input) }

def emotionalIndicators : List String :=
  ["sad", "happy", "angry", "excited", "anxious", "depressed",
   "joy", "love", "hate", "scared", "afraid", "lonely", "stressed",
   "upset", "frustrated", "overwhelmed", "thrilled", "amazing", "terrible"]

def playfulIndicators : List String :=
  ["joke", "funny", "haha", "lol", "xd", "hilarious", "silly", "playful",
   "tease", "banter", "witty", "clever", "smart"]

/-- `analyzeEmotion(input)`: keyword heuristic. -/
def analyzeEmotion (input : String) : String :=
  if emotionalIndicators.any (fun w => strHasSub (lowerStr input) w) then "emotional"
  else if playfulIndicators.any (fun w => strHasSub (lowerStr input) w) then "playful"
  else "neutral"

/-- JSON rendering of a profile value (string escaping elided; no stored
value in this development contains a quote). -/
def jsonOfPVal : PVal → String
  | .s v => "\"" ++ v ++ "\""
  | .arr vs => "[" ++ String.intercalate "," (vs.map (fun v => "\"" ++ v ++ "\"")) ++ "]"

structure FormattedMemory where
  facts : String
  conversation : String

/-- `formatMemoryForContext(memory)`. -/
def formatMemoryForContext (memory : MemState) : FormattedMemory :=
  let factLines : List String :=
    if !memory.longTerm.isEmpty then
      "USER_FACTS:" :: memory.longTerm.filterMap (fun e =>
        if e.1 != "sessionId" && e.1 != "createdAt" then
          some ("- " ++ e.1 ++ ": " ++ jsonOfPVal e.2)
        else none)
    else []
  let convLines : List String :=
    if !memory.shortTerm.isEmpty then
      "RECENT_EXCHANGE:" :: memory.shortTerm.map (fun msg =>
        upperStr msg.sender ++ ": " ++ msg.content)
    else []
  { facts :=
      if !factLines.isEmpty then String.intercalate "\n" factLines
      else "No prior information stored.",
    conversation :=
      if !convLines.isEmpty then String.intercalate "\n" convLines
      else "No recent conversation history." }

/-- `prepareLLMContext(memory, inputText, emotionalContext)`. -/
def prepareLLMContext (persona : Persona) (memory : MemState)
    (inputText emotionalContext : String) : String :=
  let systemPrompt := getSystemPrompt persona
  let toneContext := getToneContext persona emotionalContext
  let formattedMemory := formatMemoryForContext memory
  "\n" ++ systemPrompt ++ "\n" ++ toneContext ++ "\n\nMEMORY_FACTS:\n" ++
  formattedMemory.facts ++ "\n\nRECENT_CONVERSATION:\n" ++
  formattedMemory.conversation ++ "\n\nUSER_INPUT: " ++ inputText ++
  "\n\nRESPONSE_INSTRUCTIONS:\n- Be helpful and engaging\n- Maintain persona consistency\n- Use appropriate tone for emotional context\n- If you don't know something, say so rather than making it up\n- Only reference facts that have been explicitly shared or remembered\n"

/-- The response object assembled by the orchestrator. -/
structure BotResponse where
  text : String
  emotionalContext : String
  timestamp : Nat
  wasCorrected : Bool := false
deriving Repr, DecidableEq

/-- `rawResponse.replace(/^[^a-zA-Z0-9]+|[^a-zA-Z0-9]+$/g, '')`: trim the
leading and trailing runs of non-alphanumeric characters. -/
def cleanEnds (s : String) : String :=
  String.mk (((s.data.dropWhile (fun c => !c.isAlphanum)).reverse.dropWhile
    (fun c => !c.isAlphanum)).reverse)

/-- `postProcessResponse(rawResponse, emotionalContext)`. -/
def postProcessResponse (rawResponse emotionalContext : String) (now : Nat) : BotResponse :=
  let cleanedResponse := cleanEnds rawResponse
  let finalText :=
    match cleanedResponse.data.getLast? with
    | some c =>
      if c == '.' || c == '!' || c == '?' then cleanedResponse else cleanedResponse ++ "."
    | none => cleanedResponse ++ "."
  { text := finalText, emotionalContext := emotionalContext, timestamp := now }

/-- `/\b(?:my name is|i'm|i am)\s+([a-zA-Z\s]+)/i` -/
def namePatternO : Regex :=
  rcat [.wordB,
    ralts [rstr "my name is",
           rcat [rstr "i", .lit (Char.ofNat 39), rstr "m"],
           rstr "i am"],
    wsp, .grp 1 (rplus (.cpred (fun c => ('a' ≤ c && c ≤ 'z') || isSpaceChar c)))]

/-- `/\b(?:i like|i love|i enjoy|i'm interested in)\s+(.+?)(?:\.|,|$)/gi` -/
def interestPattern : Regex :=
  rcat [.wordB,
    ralts [rstr "i like", rstr "i love", rstr "i enjoy",
           rcat [rstr "i", .lit (Char.ofNat 39), rstr "m interested in"]],
    wsp, .grp 1 (rlazyPlus .anyc), ralts [.lit '.', .lit ',', .eos]]

/-- `/\b(?:i prefer|i like)\s+(.+?)(?:\.|,|$)/gi` -/
def preferencePattern : Regex :=
  rcat [.wordB, ralts [rstr "i prefer", rstr "i like"],
    wsp, .grp 1 (rlazyPlus .anyc), ralts [.lit '.', .lit ',', .eos]]

/-- `/\bvery|extremely|really\b/gi` (alternation binds loosest, exactly as
in the source). -/
def intensifierPattern : Regex :=
  ralts [rcat [.wordB, rstr "very"], rstr "extremely", rcat [rstr "really", .wordB]]

/-- `extractFactsFromInput(input)`: name, interests and preferences. -/
def extractFactsFromInput (input : String) : Profile :=
  let nameFacts : Profile :=
    match regexFind namePatternO input with
    | some m =>
      match m.grp 1 with
      | some raw =>
        if !raw.isEmpty then
          let name := jsTrim raw
          if (name.split (fun c => c == ' ')).length ≤ 3 then [("name", .s name)] else []
        else []
      | none => []
    | none => []
  let interests := (regexFindAll interestPattern input).filterMap (fun m =>
    let interest := jsTrim ((m.grp 1).getD "")
    let interest := jsTrim (regexDeleteAll intensifierPattern interest)
    if !interest.isEmpty && interest.length > 2 then some interest else none)
  let preferences := (regexFindAll preferencePattern input).filterMap (fun m =>
    let preference := jsTrim ((m.grp 1).getD "")
    let preference := jsTrim (regexDeleteAll intensifierPattern preference)
    if !preference.isEmpty && preference.length > 2 then some preference else none)
  nameFacts ++
  (if !interests.isEmpty then [("interests", PVal.arr interests)] else []) ++
  (if !preferences.isEmpty then [("preferences", PVal.arr preferences)] else [])

/-- `updateMemory(...)`: append both turns to short-term memory; merge
extracted facts into long-term memory when any were found. -/
def updateMemory (shortTermSize : Nat) (mem : MemState)
    (inputText botResponse emotionalContext : String) (now : Nat) : MemState :=
  let extractedFacts := extractFactsFromInput inputText
  let shortTerm := updateShortTermMemory mem.shortTerm shortTermSize
    [{ sender := "user", content := inputText, timestamp := now },
     { sender := "bot", content := botResponse, timestamp := now,
       emotionalContext := some emotionalContext }]
  let longTerm :=
    if !extractedFacts.isEmpty then updateLongTermMemory mem.longTerm extractedFacts
    else mem.longTerm
  { shortTerm := shortTerm, longTerm := longTerm }

/-- The violation list assembled before regeneration (persona violations
followed by the identity violations grouped by type); only the `message`
field of each entry is ever read, which is what is kept here. -/
def violationMessages (personaValidation : PMValidation)
    (identityValidation : Report) : List String :=
  personaValidation.violations.map (fun v => v.message) ++
  ((identityValidation.violationsByType.map (fun p => p.2)).flatten.map (fun v => v.message))

/-- The corrective prompt built by `regenerateWithCorrections`. -/
def correctionPrompt (context : String) (msgs : List String) : String :=
  context ++ "\n\nCORRECTION_NEEDED: The previous response had the following issues: " ++
  String.intercalate "; " msgs ++ ". Please respond again while avoiding these mistakes."

/-- The fixed safe reply used when the corrective regeneration call throws. -/
def safeFallbackText : String := "I'm here to help. Could you rephrase that?"

/-- `regenerateWithCorrections(context, violations)`: one backend call;
a thrown error degrades to the fixed safe reply.  Also returns the prompt
that was sent. -/
def regenerateWithCorrections (llm : Nat → String → Except String String)
    (context : String) (msgs : List String) (now : Nat) : BotResponse × String :=
  let cp := correctionPrompt context msgs
  match llm 1 cp with
  | .ok correctedText =>
    ({ text := correctedText, emotionalContext := "neutral", timestamp := now,
       wasCorrected := true }, cp)
  | .error _ =>
    ({ text := safeFallbackText, emotionalContext := "neutral", timestamp := now,
       wasCorrected := true }, cp)

/-- The result of `processConversation` (success or failure shape), with
the list of prompts sent to the generation backend and the memory state
after the persistence step. -/
structure ProcOut where
  success : Bool
  response : Option BotResponse := none
  error : Option String := none
  message : Option String := none
  emotionalContext : Option String := none
  llmPrompts : List String := []
  memOut : MemState
deriving Repr, DecidableEq

/-- `processConversation(userId, inputText, sessionId)`: validate input,
recall, classify tone, build prompt, generate, validate, regenerate and
revalidate once when violating, persist. -/
def processConversation (persona : Persona) (shortTermSize : Nat) (mem : MemState)
    (llm : Nat → String → Except String String) (now : Nat)
    (userId inputText sessionId : String) : ProcOut :=
  let validatedInput := validateInput inputText
  if !validatedInput.isValid then
    { success := false, error := validatedInput.error,
      message := some "Invalid input received", memOut := mem }
  else
    let userMemory := mem
    let emotionalContext := analyzeEmotion inputText
    let llmContext := prepareLLMContext persona userMemory inputText emotionalContext
    match llm 0 llmContext with
    | .error e =>
      { success := false, error := some e,
        message := some "An error occurred processing your request",
        llmPrompts := [llmContext], memOut := mem }
    | .ok rawResponse =>
      let processedResponse := postProcessResponse rawResponse emotionalContext now
      let personaValidation := PersonaMgr.validateResponse persona processedResponse.text
      let identityValidation :=
        IdentityValidator.validate persona processedResponse.text (toSnapshot userMemory)
      let hasViolations := !personaValidation.isValid || !identityValidation.overallValid
      let regenOut :=
        if hasViolations then
          let msgs := violationMessages personaValidation identityValidation
          let frcp := regenerateWithCorrections llm llmContext msgs now
          let revalidatedIdentity :=
            IdentityValidator.validate persona frcp.1.text (toSnapshot userMemory)
          let corrected :=
            IdentityValidator.generateCorrection persona frcp.1.text revalidatedIdentity
          let fr2 :=
            if !revalidatedIdentity.overallValid then { frcp.1 with text := corrected }
            else frcp.1
          (fr2, [llmContext, frcp.2])
        else (processedResponse, [llmContext])
      let memOut :=
        updateMemory shortTermSize mem inputText regenOut.1.text emotionalContext now
      { success := true, response := some regenOut.1,
        emotionalContext := some emotionalContext,
        llmPrompts := regenOut.2, memOut := memOut }

end Orchestrator

/-!
## `POST /api/conversation` route guard (`src/index.js`)
-/

namespace AppRoute

/-- JS truthiness of an optional request-body string field (`undefined`
and the empty string are falsy). -/
def fieldTruthy : Option String → Bool
  | none => false
  | some s => !s.isEmpty

inductive RouteOutcome where
  | badRequest (error : String)
  | runPipeline (userId inputText : String) (sessionId : Option String)
deriving Repr, DecidableEq

/-- The guard at the head of the conversation route: a missing `userId`
or `inputText` is answered with a 400 error before any pipeline work; any
other body proceeds to session registration and orchestration.  There is
no input-length check on this path. -/
def conversationGate (userId inputText sessionId : Option String) : RouteOutcome :=
  if !fieldTruthy userId || !fieldTruthy inputText then
    .badRequest "userId and inputText required"
  else .runPipeline (userId.getD "") (inputText.getD "") sessionId

end AppRoute

/-!
## Demo fixtures (a persona of the shape of `persona.json`) and sanity checks
-/

def demoPersona : PersonaMgr.Persona :=
  { name := "Astra",
    identity := "a warm digital companion",
    never_claims := ["I am human", "I can see you"],
    forbidden_outputs := ["I am an AI language model", "As an AI"],
    tone_defaults := [("neutral", "calm, friendly"), ("emotional", "gentle, supportive"),
                      ("playful", "light, witty")] }

/-!
## Sanity checks: concrete evaluations of the embedded operations
-/

-- sanity checks for the matcher, mirroring simple JS evaluations
example : JsRegex.regexTest (JsRegex.rstr "abc") "xxABCx" = true := by decide
example : JsRegex.regexTest (JsRegex.rcat [.wordB, JsRegex.rstr "ab"]) "cab" = false := by decide
example : JsRegex.regexTest (JsRegex.rcat [.wordB, JsRegex.rstr "ab"]) "c ab" = true := by decide
example : JsStr.strHasSub "hello world" "lo wo" = true := by decide
example : JsStr.jsTrim "  hi  " = "hi" := by decide

section MemoryWriteRulesChecks

open MemoryWriteRules

-- spec scenario: "My name is John" is stored as a name fact with value "John"
example : shouldStoreInLongTermMemory "My name is John" =
    factDecision { type := "name", value := "John", original := "My name is John" } := by
  decide

-- spec scenario: "You saw me yesterday" is rejected
example : shouldStoreInLongTermMemory "You saw me yesterday" = rejectionDecision := by decide

-- emotional override on the extracted value
example : shouldStoreInLongTermMemory "I feel happy today" = emotionalDecision := by decide

-- ambiguous default
example : shouldStoreInLongTermMemory "what a nice day" = ambiguousDecision := by decide

end MemoryWriteRulesChecks

section FactValidationChecks

open MemoryWriteRules

example : (validateMemoryFact (some { value := .s "Sam" })).isValid = true := by decide
example : (validateMemoryFact (some { value := .s "x" })).isValid = false := by decide
example : (validateMemoryFact (some { value := .s "you know me well" })).isValid = false := by
  decide
example : (validateMemoryFact (some { value := .s "it will be sunny" })).isValid = false := by
  decide
example : (validateMemoryFact none).isValid = false := by decide

end FactValidationChecks

section ValidatorChecks

open IdentityValidator

-- spec scenario: an AI-model disclaimer reply fails validation
example :
    (validate demoPersona "I am an AI language model developed by X." { }).overallValid
      = false := by decide

-- spec scenario: an in-persona greeting passes with zero violations
example :
    (validate demoPersona "Hello! I'm Astra, a warm digital companion." { }).overallValid
      = true := by decide

example :
    (validate demoPersona "Hello! I'm Astra, a warm digital companion." { }).totalViolations
      = 0 := by decide

-- a wrong self-name is flagged
example :
    (validate demoPersona "I'm Bob, nice to meet you." { }).overallValid = false := by decide

end ValidatorChecks


/-!
## Claim theorems
-/

/-- C1: for every input utterance matching at least one rejection pattern,
`shouldStoreInLongTermMemory` returns the reject decision (`shouldStore`
false, type `rejection_pattern`), regardless of any fact-indicator match:
the rejection scan is the first check performed. -/
theorem C1_rejection_precedes_fact (input : String)
    (h : MemoryWriteRules.rejectionPatterns.any
      (fun pattern => JsRegex.regexTest pattern input) = true) :
    MemoryWriteRules.shouldStoreInLongTermMemory input =
      MemoryWriteRules.rejectionDecision := by
  unfold MemoryWriteRules.shouldStoreInLongTermMemory
  simp [h]

/-- Witness for C1: an utterance that matches both a rejection pattern
("you saw me") and a fact-indicator pattern ("my name is ...") is still
rejected. -/
theorem C1_witness :
    MemoryWriteRules.rejectionPatterns.any
      (fun pattern => JsRegex.regexTest pattern "You saw me and my name is John") = true ∧
    MemoryWriteRules.factIndicators.any
      (fun pattern => JsRegex.regexTest pattern "You saw me and my name is John") = true ∧
    MemoryWriteRules.shouldStoreInLongTermMemory "You saw me and my name is John" =
      MemoryWriteRules.rejectionDecision :=
  ⟨by decide, by decide, C1_rejection_precedes_fact _ (by decide)⟩

/-- Every decision produced by `shouldStoreInLongTermMemory` is one of the
four literal decision records of the source. -/
theorem shouldStore_cases (input : String) :
    MemoryWriteRules.shouldStoreInLongTermMemory input =
        MemoryWriteRules.rejectionDecision ∨
    MemoryWriteRules.shouldStoreInLongTermMemory input =
        MemoryWriteRules.emotionalDecision ∨
    MemoryWriteRules.shouldStoreInLongTermMemory input =
        MemoryWriteRules.ambiguousDecision ∨
    ∃ f, MemoryWriteRules.shouldStoreInLongTermMemory input =
        MemoryWriteRules.factDecision f := by
  unfold MemoryWriteRules.shouldStoreInLongTermMemory MemoryWriteRules.fallThroughDecision
  split
  · exact Or.inl rfl
  · split
    · split
      · split
        · exact Or.inr (Or.inl rfl)
        · exact Or.inr (Or.inr (Or.inr ⟨_, rfl⟩))
      · split
        · exact Or.inr (Or.inl rfl)
        · exact Or.inr (Or.inr (Or.inl rfl))
    · split
      · exact Or.inr (Or.inl rfl)
      · exact Or.inr (Or.inr (Or.inl rfl))

/-- C10: the decision type is always one of the four literals, the
`shouldStore` flag is set exactly for type `fact`, and a fact object is
attached exactly for type `fact`. -/
theorem C10_decision_invariant (input : String) :
    ((MemoryWriteRules.shouldStoreInLongTermMemory input).type = "rejection_pattern" ∨
     (MemoryWriteRules.shouldStoreInLongTermMemory input).type = "fact" ∨
     (MemoryWriteRules.shouldStoreInLongTermMemory input).type = "emotional" ∨
     (MemoryWriteRules.shouldStoreInLongTermMemory input).type = "ambiguous") ∧
    ((MemoryWriteRules.shouldStoreInLongTermMemory input).shouldStore = true ↔
     (MemoryWriteRules.shouldStoreInLongTermMemory input).type = "fact") ∧
    ((MemoryWriteRules.shouldStoreInLongTermMemory input).fact ≠ none ↔
     (MemoryWriteRules.shouldStoreInLongTermMemory input).type = "fact") := by
  rcases shouldStore_cases input with h | h | h | ⟨f, h⟩ <;> rw [h]
  · refine ⟨Or.inl rfl, ?_, ?_⟩ <;>
      simp [MemoryWriteRules.rejectionDecision]
  · refine ⟨Or.inr (Or.inr (Or.inl rfl)), ?_, ?_⟩ <;>
      simp [MemoryWriteRules.emotionalDecision]
  · refine ⟨Or.inr (Or.inr (Or.inr rfl)), ?_, ?_⟩ <;>
      simp [MemoryWriteRules.ambiguousDecision]
  · refine ⟨Or.inr (Or.inl rfl), ?_, ?_⟩ <;>
      simp [MemoryWriteRules.factDecision]

/-- C5: `validateMemoryFact` returns invalid exactly for a missing or
JS-falsy candidate, a (lowercased) value of length below 2 or above 200,
a self-referential value, or a future-tense value; it is valid otherwise. -/
theorem C5_fact_validation (fact : Option MemoryWriteRules.FactCand) :
    (MemoryWriteRules.validateMemoryFact fact).isValid = false ↔
      (fact = none ∨ ∃ f, fact = some f ∧
        (f.value.truthy = false ∨
         (JsStr.lowerStr f.value.toStr).length < 2 ∨
         200 < (JsStr.lowerStr f.value.toStr).length ∨
         MemoryWriteRules.isSelfReferential (JsStr.lowerStr f.value.toStr) = true ∨
         MemoryWriteRules.hasTemporalIssues (JsStr.lowerStr f.value.toStr) = true)) := by
  cases fact with
  | none => simp [MemoryWriteRules.validateMemoryFact]
  | some f =>
    simp only [MemoryWriteRules.validateMemoryFact, Option.some.injEq, reduceCtorEq,
      false_or]
    split_ifs with h1 h2 h3 h4 h5 <;> simp_all

/-- Counterexample to C6 as stated: "I told you before I'm stressed"
matches a fact-indicator pattern and its extracted fact value ("stressed")
contains an emotional-state keyword, yet the classification is the
rejection decision, not the emotional one, because the rejection-pattern
scan runs first. -/
theorem C6_counterexample :
    ((MemoryWriteRules.firstFactMatch "I told you before I'm stressed").map (fun pm =>
        (MemoryWriteRules.extractFact "I told you before I'm stressed" pm.1 (some pm.2)).map
          (fun f => MemoryWriteRules.containsEmotionalContent f.value)) =
      some (some true)) ∧
    MemoryWriteRules.shouldStoreInLongTermMemory "I told you before I'm stressed" =
      MemoryWriteRules.rejectionDecision ∧
    MemoryWriteRules.shouldStoreInLongTermMemory "I told you before I'm stressed" ≠
      MemoryWriteRules.emotionalDecision :=
  ⟨by decide, by decide, by decide⟩

/-- C6 (amended): for every utterance that matches no rejection pattern,
matches a fact-indicator pattern, and whose extracted fact value contains
an emotional-state keyword, the classification is the emotional decision
(`shouldStore` false, type `emotional`), not a fact decision. -/
theorem C6_emotional_override (input : String)
    (hrej : MemoryWriteRules.rejectionPatterns.any
      (fun pattern => JsRegex.regexTest pattern input) = false)
    (p : JsRegex.Regex) (m : JsRegex.RMatch)
    (hfact : MemoryWriteRules.firstFactMatch input = some (p, m))
    (f : MemoryWriteRules.Fact)
    (hext : MemoryWriteRules.extractFact input p (some m) = some f)
    (hemo : MemoryWriteRules.containsEmotionalContent f.value = true) :
    MemoryWriteRules.shouldStoreInLongTermMemory input =
      MemoryWriteRules.emotionalDecision := by
  unfold MemoryWriteRules.shouldStoreInLongTermMemory
  simp [hrej, hfact, hext, hemo]

/-- Witness for C6 (amended): "I feel happy today" extracts the value
"happy today", which carries an emotional keyword, so it is classified
emotional. -/
theorem C6_witness :
    MemoryWriteRules.rejectionPatterns.any
      (fun pattern => JsRegex.regexTest pattern "I feel happy today") = false ∧
    MemoryWriteRules.shouldStoreInLongTermMemory "I feel happy today" =
      MemoryWriteRules.emotionalDecision :=
  ⟨by decide, C6_emotional_override "I feel happy today" (by decide) _ _ rfl _ rfl (by decide)⟩

namespace MemoryMgr

open MemoryWriteRules

theorem lookupKey_eq_of_nodup : ∀ (f : Profile) (e : String × PVal),
    (f.map Prod.fst).Nodup → e ∈ f → lookupKey f e.1 = some e.2 := by
  intro f
  induction f with
  | nil => intro e _ h; cases h
  | cons hd tl ih =>
    intro e hnd hmem
    simp only [List.map_cons, List.nodup_cons] at hnd
    rcases List.mem_cons.mp hmem with rfl | hmem2
    · simp [lookupKey, List.find?]
    · have hne : (hd.1 == e.1) = false := by
        refine beq_eq_false_iff_ne.mpr ?_
        intro heq
        exact hnd.1 (heq ▸ List.mem_map_of_mem Prod.fst hmem2)
      have htl := ih e hnd.2 hmem2
      simpa [lookupKey, List.find?, hne] using htl

theorem lookupKey_isSome_iff (p : Profile) (k : String) :
    (lookupKey p k).isSome = true ↔ ∃ e ∈ p, e.1 = k := by
  simp [lookupKey, List.find?_isSome]

theorem owKey_owKey (f : Profile) (e : String × PVal) :
    owKey f (owKey f e) = owKey f e := by
  unfold owKey
  cases h : lookupKey f e.1 <;> simp [h]

theorem owKey_eq_self (f : Profile) (hnd : (f.map Prod.fst).Nodup)
    (e : String × PVal) (he : e ∈ f) : owKey f e = e := by
  unfold owKey
  rw [lookupKey_eq_of_nodup f e hnd he]
  rfl

theorem key_isSome_spreadMerge (a f : Profile) (e : String × PVal) (he : e ∈ f) :
    (lookupKey (spreadMerge a f) e.1).isSome = true := by
  rcases hcase : lookupKey a e.1 with _ | v
  · have hmem : e ∈ spreadMerge a f :=
      List.mem_append_right _ (List.mem_filter.mpr ⟨he, by simp [hcase]⟩)
    exact (lookupKey_isSome_iff _ _).mpr ⟨e, hmem, rfl⟩
  · have hfind : ∃ e2, List.find? (fun x => x.1 == e.1) a = some e2 := by
      cases hf : List.find? (fun x => x.1 == e.1) a with
      | none => simp [lookupKey, hf] at hcase
      | some e2 => exact ⟨e2, rfl⟩
    obtain ⟨e2, hf⟩ := hfind
    have hmem2 : e2 ∈ a := List.mem_of_find?_eq_some hf
    have hkey : e2.1 = e.1 := by
      have := List.find?_some hf
      simpa using this
    have hmem : owKey f e2 ∈ spreadMerge a f :=
      List.mem_append_left _ (List.mem_map_of_mem (owKey f) hmem2)
    exact (lookupKey_isSome_iff _ _).mpr ⟨owKey f e2, hmem, by simpa [owKey] using hkey⟩

theorem spreadMerge_idem (a f : Profile) (hnd : (f.map Prod.fst).Nodup) :
    spreadMerge (spreadMerge a f) f = spreadMerge a f := by
  have hmap : (spreadMerge a f).map (owKey f) = spreadMerge a f := by
    unfold spreadMerge
    rw [List.map_append, List.map_map]
    have h1 : a.map (owKey f ∘ owKey f) = a.map (owKey f) :=
      List.map_congr_left (fun e _ => owKey_owKey f e)
    have h2 : (f.filter (fun e => (lookupKey a e.1).isNone)).map (owKey f) =
        f.filter (fun e => (lookupKey a e.1).isNone) := by
      have := List.map_congr_left (l := f.filter (fun e => (lookupKey a e.1).isNone))
        (f := owKey f) (g := id)
        (fun e he => owKey_eq_self f hnd e (List.mem_of_mem_filter he))
      simpa using this
    rw [h1, h2]
  have hfilter : f.filter (fun e => (lookupKey (spreadMerge a f) e.1).isNone) = [] := by
    rw [List.filter_eq_nil_iff]
    intro e he
    have := key_isSome_spreadMerge a f e he
    simp [Option.isNone_iff_eq_none]
    intro hnone
    rw [hnone] at this
    simp at this
  conv_lhs => rw [spreadMerge]
  rw [hmap, hfilter, List.append_nil]

end MemoryMgr

/-- C8: the long-term merge is idempotent for a fact object (unique keys,
as every JS object has): merging twice equals merging once; and when no
fact survives validation the stored profile is returned unchanged (no
write). -/
theorem C8_merge_idempotent_noop (store facts : MemoryMgr.Profile)
    (hnd : (facts.map Prod.fst).Nodup) :
    MemoryMgr.updateLongTermMemory (MemoryMgr.updateLongTermMemory store facts) facts =
      MemoryMgr.updateLongTermMemory store facts ∧
    ((facts.filter (fun e => (MemoryWriteRules.validateMemoryFact
        (some { type := e.1, value := e.2 })).isValid)).isEmpty = true →
      MemoryMgr.updateLongTermMemory store facts = store) := by
  constructor
  · unfold MemoryMgr.updateLongTermMemory
    by_cases hemp : (facts.filter (fun e => (MemoryWriteRules.validateMemoryFact
        (some { type := e.1, value := e.2 })).isValid)).isEmpty
    · simp [hemp]
    · simp only [hemp, if_neg, Bool.false_eq_true, not_false_eq_true, if_false]
      refine MemoryMgr.spreadMerge_idem _ _ ?_
      exact hnd.sublist ((List.filter_sublist facts).map Prod.fst)
  · intro hemp
    unfold MemoryMgr.updateLongTermMemory
    simp [hemp]

/-- Witness for C8: merging `{name: "Sam"}` twice equals merging it once,
and merging a fact set whose accepted subset is empty (a self-referential
value) leaves the profile unchanged. -/
theorem C8_witness :
    MemoryMgr.updateLongTermMemory
        (MemoryMgr.updateLongTermMemory [] [("name", MemoryWriteRules.PVal.s "Sam")])
        [("name", MemoryWriteRules.PVal.s "Sam")] =
      MemoryMgr.updateLongTermMemory [] [("name", MemoryWriteRules.PVal.s "Sam")] ∧
    MemoryMgr.updateLongTermMemory [("name", MemoryWriteRules.PVal.s "Sam")]
        [("note", MemoryWriteRules.PVal.s "we met before")] =
      [("name", MemoryWriteRules.PVal.s "Sam")] :=
  ⟨(C8_merge_idempotent_noop [] [("name", MemoryWriteRules.PVal.s "Sam")] (by decide)).1,
   (C8_merge_idempotent_noop [("name", MemoryWriteRules.PVal.s "Sam")]
      [("note", MemoryWriteRules.PVal.s "we met before")] (by decide)).2 (by decide)⟩

namespace IdentityValidator

/-- The per-rule outcome recorded by the `validate` loop. -/
def ruleEntry (response : String) (memory : MemorySnapshot) (rule : ValidationRule) :
    String × RuleResult :=
  match rule.validate response memory with
  | .ok r => (rule.name, r)
  | .error msg => (rule.name, errorRuleResult rule.name msg)

/-- Whether a rule passes (a thrown error counts as failing). -/
def rulePasses (response : String) (memory : MemorySnapshot) (rule : ValidationRule) :
    Bool :=
  match rule.validate response memory with
  | .ok r => r.isValid
  | .error _ => false

theorem foldl_applyRule_ruleResults (response : String) (memory : MemorySnapshot) :
    ∀ (rules : List ValidationRule) (acc : Report),
    (rules.foldl (applyRule response memory) acc).ruleResults =
      acc.ruleResults ++ rules.map (ruleEntry response memory) := by
  intro rules
  induction rules with
  | nil => intro acc; simp
  | cons r rs ih =>
    intro acc
    simp only [List.foldl_cons, List.map_cons]
    rw [ih]
    have hstep : (applyRule response memory acc r).ruleResults =
        acc.ruleResults ++ [ruleEntry response memory r] := by
      unfold applyRule ruleEntry
      cases h : r.validate response memory with
      | ok rr => by_cases hv : rr.isValid <;> simp [hv]
      | error msg => simp
    rw [hstep, List.append_assoc]
    rfl

theorem foldl_applyRule_overallValid (response : String) (memory : MemorySnapshot) :
    ∀ (rules : List ValidationRule) (acc : Report),
    (rules.foldl (applyRule response memory) acc).overallValid =
      (acc.overallValid && rules.all (rulePasses response memory)) := by
  intro rules
  induction rules with
  | nil => intro acc; simp
  | cons r rs ih =>
    intro acc
    simp only [List.foldl_cons, List.all_cons]
    rw [ih]
    have hstep : (applyRule response memory acc r).overallValid =
        (acc.overallValid && rulePasses response memory r) := by
      unfold applyRule rulePasses
      cases h : r.validate response memory with
      | ok rr => by_cases hv : rr.isValid <;> simp [hv]
      | error msg => simp
    rw [hstep, Bool.and_assoc]

theorem validateRules_ruleResults (rules : List ValidationRule) (response : String)
    (memory : MemorySnapshot) :
    (validateRules rules response memory).ruleResults =
      rules.map (ruleEntry response memory) := by
  unfold validateRules
  rw [foldl_applyRule_ruleResults]
  rfl

theorem validateRules_overallValid (rules : List ValidationRule) (response : String)
    (memory : MemorySnapshot) :
    (validateRules rules response memory).overallValid =
      rules.all (rulePasses response memory) := by
  unfold validateRules
  rw [foldl_applyRule_overallValid]
  rfl

end IdentityValidator

/-- C2: any reply containing (case-insensitively) a forbidden-output
phrase makes `validate` report `overallValid = false` with a
`forbidden_statement` violation carrying that phrase, and any contained
never-claim phrase likewise yields a `never_claim_violation` violation
(and an invalid report). -/
theorem C2_forbidden_and_never_claims (persona : PersonaMgr.Persona) (reply : String)
    (memory : IdentityValidator.MemorySnapshot) :
    (∀ phrase ∈ persona.forbidden_outputs,
      JsStr.strHasSub (JsStr.lowerStr reply) (JsStr.lowerStr phrase) = true →
      (IdentityValidator.validate persona reply memory).overallValid = false ∧
      ∃ v ∈ (IdentityValidator.validate persona reply memory).allViolations,
        v.type = "forbidden_statement" ∧ v.forbiddenPhrase = some phrase) ∧
    (∀ nc ∈ persona.never_claims,
      JsStr.strHasSub (JsStr.lowerStr reply) (JsStr.lowerStr nc) = true →
      (IdentityValidator.validate persona reply memory).overallValid = false ∧
      ∃ v ∈ (IdentityValidator.validate persona reply memory).allViolations,
        v.type = "never_claim_violation" ∧ v.violatedClaim = some nc) := by
  have hall : (IdentityValidator.validate persona reply memory).allViolations =
      (IdentityValidator.validateIdentityAlignment reply).violations ++
      ((IdentityValidator.validateNameConsistency persona reply).violations ++
      ((IdentityValidator.validateOriginClaims reply).violations ++
      ((IdentityValidator.validateMemoryClaims reply memory).violations ++
      (IdentityValidator.validateForbiddenStatements persona reply).violations))) := by
    unfold IdentityValidator.validate IdentityValidator.Report.allViolations
    rw [IdentityValidator.validateRules_ruleResults]
    simp [IdentityValidator.buildValidationRules, IdentityValidator.ruleEntry]
  have hoverall : ∀ hinv : (IdentityValidator.validateForbiddenStatements persona
      reply).isValid = false,
      (IdentityValidator.validate persona reply memory).overallValid = false := by
    intro hinv
    unfold IdentityValidator.validate
    rw [IdentityValidator.validateRules_overallValid]
    simp only [IdentityValidator.buildValidationRules, List.all_cons, List.all_nil]
    have h5 : IdentityValidator.rulePasses reply memory
        { name := "forbidden_statements",
          validate := fun response _ =>
            .ok (IdentityValidator.validateForbiddenStatements persona response) } =
        (IdentityValidator.validateForbiddenStatements persona reply).isValid := rfl
    rw [h5, hinv]
    simp
  constructor
  · intro phrase hmemF hhit
    have hv : ({ type := "forbidden_statement",
                 message := "Response contains forbidden phrase: " ++ phrase,
                 severity := "high", forbiddenPhrase := some phrase } :
          IdentityValidator.Violation) ∈
        (IdentityValidator.validateForbiddenStatements persona reply).violations := by
      unfold IdentityValidator.validateForbiddenStatements
      refine List.mem_append_left _ ?_
      exact List.mem_filterMap.mpr ⟨phrase, hmemF, by simp [hhit]⟩
    have hinv : (IdentityValidator.validateForbiddenStatements persona reply).isValid =
        false := by
      have hne : (IdentityValidator.validateForbiddenStatements persona
          reply).violations ≠ [] := List.ne_nil_of_mem hv
      unfold IdentityValidator.validateForbiddenStatements at hne ⊢
      simpa [List.isEmpty_iff] using hne
    refine ⟨hoverall hinv, ?_⟩
    exact ⟨_, by
      rw [hall]
      simp only [List.mem_append]
      exact Or.inr (Or.inr (Or.inr (Or.inr hv))), rfl, rfl⟩
  · intro nc hmemN hhit
    have hv : ({ type := "never_claim_violation",
                 message := "Response violates never claim: " ++ nc,
                 severity := "high", violatedClaim := some nc } :
          IdentityValidator.Violation) ∈
        (IdentityValidator.validateForbiddenStatements persona reply).violations := by
      unfold IdentityValidator.validateForbiddenStatements
      refine List.mem_append_right _ ?_
      exact List.mem_filterMap.mpr ⟨nc, hmemN, by simp [hhit]⟩
    have hinv : (IdentityValidator.validateForbiddenStatements persona reply).isValid =
        false := by
      have hne : (IdentityValidator.validateForbiddenStatements persona
          reply).violations ≠ [] := List.ne_nil_of_mem hv
      unfold IdentityValidator.validateForbiddenStatements at hne ⊢
      simpa [List.isEmpty_iff] using hne
    refine ⟨hoverall hinv, ?_⟩
    exact ⟨_, by
      rw [hall]
      simp only [List.mem_append]
      exact Or.inr (Or.inr (Or.inr (Or.inr hv))), rfl, rfl⟩

/-- Witness for C2: a reply containing the configured forbidden phrase
"As an AI" (in different case) and the never-claim "I am human" is
reported invalid with both violation kinds. -/
theorem C2_witness :
    (IdentityValidator.validate demoPersona "as an ai I cannot say; I am human though."
      { }).overallValid = false ∧
    (∃ v ∈ (IdentityValidator.validate demoPersona
        "as an ai I cannot say; I am human though." { }).allViolations,
      v.type = "forbidden_statement" ∧ v.forbiddenPhrase = some "As an AI") ∧
    (∃ v ∈ (IdentityValidator.validate demoPersona
        "as an ai I cannot say; I am human though." { }).allViolations,
      v.type = "never_claim_violation" ∧ v.violatedClaim = some "I am human") := by
  have h := C2_forbidden_and_never_claims demoPersona
    "as an ai I cannot say; I am human though." { }
  refine ⟨(h.1 "As an AI" (by decide) (by decide)).1,
          (h.1 "As an AI" (by decide) (by decide)).2,
          (h.2 "I am human" (by decide) (by decide)).2⟩

/-- A rule whose body throws, for exercising the fail-closed path. -/
def explodingRule : IdentityValidator.ValidationRule :=
  { name := "exploding_rule", validate := fun _ _ => .error "boom" }

/-- C3: the `validate` loop is fail-closed: if any sub-check of the rule
battery throws, the loop still returns a report, that report records a
`validation_error` violation for the failed rule, and `overallValid` is
false.  (`IdentityValidator.validate` is `validateRules` applied to the
built-in battery, whose translated bodies are total; the theorem covers
every battery the loop can be run with, as the source's `try/catch`
does.) -/
theorem C3_fail_closed (rules : List IdentityValidator.ValidationRule)
    (response : String) (memory : IdentityValidator.MemorySnapshot)
    (rule : IdentityValidator.ValidationRule) (hmem : rule ∈ rules) (msg : String)
    (hthrow : rule.validate response memory = .error msg) :
    (IdentityValidator.validateRules rules response memory).overallValid = false ∧
    (rule.name, IdentityValidator.errorRuleResult rule.name msg) ∈
      (IdentityValidator.validateRules rules response memory).ruleResults ∧
    ∃ v ∈ (IdentityValidator.validateRules rules response memory).allViolations,
      v.type = "validation_error" := by
  have hentry : IdentityValidator.ruleEntry response memory rule =
      (rule.name, IdentityValidator.errorRuleResult rule.name msg) := by
    unfold IdentityValidator.ruleEntry
    rw [hthrow]
  have hres : (rule.name, IdentityValidator.errorRuleResult rule.name msg) ∈
      (IdentityValidator.validateRules rules response memory).ruleResults := by
    rw [IdentityValidator.validateRules_ruleResults]
    exact hentry ▸ List.mem_map_of_mem _ hmem
  refine ⟨?_, hres, ?_⟩
  · rw [IdentityValidator.validateRules_overallValid]
    refine List.all_eq_false.mpr ⟨rule, hmem, ?_⟩
    unfold IdentityValidator.rulePasses
    rw [hthrow]
    simp
  · refine ⟨{ type := "validation_error",
              message := "Error in " ++ rule.name ++ " validation: " ++ msg,
              severity := "critical" }, ?_, rfl⟩
    unfold IdentityValidator.Report.allViolations
    refine List.mem_flatten.mpr
      ⟨(IdentityValidator.errorRuleResult rule.name msg).violations, ?_, ?_⟩
    · exact List.mem_map_of_mem (fun p => p.2.violations) hres
    · unfold IdentityValidator.errorRuleResult
      exact List.mem_singleton_self _

/-- Witness for C3: appending a throwing rule to the built-in battery
yields an invalid report recording a `validation_error` for it. -/
theorem C3_witness :
    (IdentityValidator.validateRules
        (IdentityValidator.buildValidationRules demoPersona ++ [explodingRule])
        "Hello there." { }).overallValid = false ∧
    ("exploding_rule", IdentityValidator.errorRuleResult "exploding_rule" "boom") ∈
      (IdentityValidator.validateRules
        (IdentityValidator.buildValidationRules demoPersona ++ [explodingRule])
        "Hello there." { }).ruleResults ∧
    ∃ v ∈ (IdentityValidator.validateRules
        (IdentityValidator.buildValidationRules demoPersona ++ [explodingRule])
        "Hello there." { }).allViolations, v.type = "validation_error" :=
  C3_fail_closed (IdentityValidator.buildValidationRules demoPersona ++ [explodingRule])
    "Hello there." { } explodingRule
    (List.mem_append_right _ (List.mem_singleton_self _)) "boom" rfl

/-- C7: when the initial response fails validation, exactly one corrective
regeneration call is issued (the prompt log is exactly the initial prompt
followed by the correction prompt); if that call throws, the regenerated
text is the fixed safe reply rather than an error; the regenerated text is
revalidated once, and the deterministic rule-based correction is applied
to it only if it is still violating. -/
theorem C7_single_regeneration (persona : PersonaMgr.Persona) (stSize : Nat)
    (mem : Orchestrator.MemState) (llm : Nat → String → Except String String) (now : Nat)
    (userId inputText sessionId raw : String)
    (hok : (Orchestrator.validateInput inputText).isValid = true)
    (h0 : llm 0 (Orchestrator.prepareLLMContext persona mem inputText
      (Orchestrator.analyzeEmotion inputText)) = .ok raw)
    (hviol : (!(PersonaMgr.validateResponse persona
        (Orchestrator.postProcessResponse raw
          (Orchestrator.analyzeEmotion inputText) now).text).isValid ||
      !(IdentityValidator.validate persona
        (Orchestrator.postProcessResponse raw
          (Orchestrator.analyzeEmotion inputText) now).text
        (Orchestrator.toSnapshot mem)).overallValid) = true) :
    let emo := Orchestrator.analyzeEmotion inputText
    let ctx := Orchestrator.prepareLLMContext persona mem inputText emo
    let processed := Orchestrator.postProcessResponse raw emo now
    let msgs := Orchestrator.violationMessages
      (PersonaMgr.validateResponse persona processed.text)
      (IdentityValidator.validate persona processed.text (Orchestrator.toSnapshot mem))
    let cp := Orchestrator.correctionPrompt ctx msgs
    let regenText :=
      match llm 1 cp with
      | .ok t => t
      | .error _ => Orchestrator.safeFallbackText
    let reval := IdentityValidator.validate persona regenText (Orchestrator.toSnapshot mem)
    let finalText :=
      if reval.overallValid then regenText
      else IdentityValidator.generateCorrection persona regenText reval
    let out := Orchestrator.processConversation persona stSize mem llm now
      userId inputText sessionId
    out.llmPrompts = [ctx, cp] ∧
    out.success = true ∧
    out.response = some { text := finalText, emotionalContext := "neutral",
                          timestamp := now, wasCorrected := true } := by
  simp only [Orchestrator.processConversation, Orchestrator.regenerateWithCorrections,
    hok, Bool.not_true, Bool.false_eq_true, if_false, h0, hviol, if_true]
  cases hllm1 : llm 1 (Orchestrator.correctionPrompt
      (Orchestrator.prepareLLMContext persona mem inputText
        (Orchestrator.analyzeEmotion inputText))
      (Orchestrator.violationMessages
        (PersonaMgr.validateResponse persona
          (Orchestrator.postProcessResponse raw
            (Orchestrator.analyzeEmotion inputText) now).text)
        (IdentityValidator.validate persona
          (Orchestrator.postProcessResponse raw
            (Orchestrator.analyzeEmotion inputText) now).text
          (Orchestrator.toSnapshot mem)))) with
  | ok t =>
    simp only [hllm1]
    by_cases hrv : (IdentityValidator.validate persona t
        (Orchestrator.toSnapshot mem)).overallValid <;>
      simp [hrv]
  | error e =>
    simp only [hllm1]
    by_cases hrv : (IdentityValidator.validate persona Orchestrator.safeFallbackText
        (Orchestrator.toSnapshot mem)).overallValid <;>
      simp [hrv]


/-- The generation backend used by the orchestrator witnesses: the primary
call returns a forbidden-phrase reply, the regeneration call throws. -/
def demoLLM : Nat → String → Except String String := fun n _ =>
  if n == 0 then .ok "As an AI, I cannot do that" else .error "backend down"

/-- Witness for C7: with a violating first reply and a throwing
regeneration call, the pipeline succeeds with exactly two backend calls
and returns the safe fallback wrapped by the rule-based correction (the
fallback itself trips the name-consistency rule for this persona). -/
theorem C7_witness :
    (Orchestrator.processConversation demoPersona 10 ⟨[], []⟩ demoLLM 0 "u1" "Hello"
      "s1").success = true ∧
    (Orchestrator.processConversation demoPersona 10 ⟨[], []⟩ demoLLM 0 "u1" "Hello"
      "s1").llmPrompts.length = 2 ∧
    (Orchestrator.processConversation demoPersona 10 ⟨[], []⟩ demoLLM 0 "u1" "Hello"
      "s1").response.map (fun r => r.text) =
      some ("I'm Astra, a warm digital companion. I'm here to listen and help. " ++
        Orchestrator.safeFallbackText) := by
  have h := C7_single_regeneration demoPersona 10 ⟨[], []⟩ demoLLM 0 "u1" "Hello" "s1"
    "As an AI, I cannot do that" (by decide) rfl (by decide)
  exact ⟨h.2.1, by decide, by decide⟩

/-- An input exceeding the documented 2000-character bound. -/
def longInput : String := String.mk (List.replicate 2001 'a')

theorem longInput_length : longInput.length = 2001 := by
  rw [longInput, String.length_mk, List.length_replicate]

theorem longInput_isEmpty : longInput.isEmpty = false := by
  rw [Bool.eq_false_iff]
  intro hI
  have hempty := (String.isEmpty_iff _).mp hI
  have := congrArg String.length hempty
  rw [longInput_length] at this
  simp [String.length_empty] at this

/-- Counterexample to C9 as stated: an over-long `inputText` (2001
characters) with a present `userId` is not rejected by the conversation
route; the request proceeds to the pipeline (the served route has no
length check on this path). -/
theorem C9_counterexample :
    longInput.length > 2000 ∧
    AppRoute.conversationGate (some "u1") (some longInput) none =
      AppRoute.RouteOutcome.runPipeline "u1" longInput none := by
  refine ⟨by rw [longInput_length]; omega, ?_⟩
  simp [AppRoute.conversationGate, AppRoute.fieldTruthy, longInput_isEmpty]
  decide

/-- C9 (amended): a request with a missing (or empty) `userId` or
`inputText` is rejected by the route guard before any pipeline work; and
an empty or over-2000-character `inputText` is rejected by the
orchestrator's `validateInput` with a failure result, no generation call
and no memory write.  The served route itself enforces only the
missing-field check, not the length limit. -/
theorem C9_input_rejection :
    (∀ (userId inputText sessionId : Option String),
      AppRoute.fieldTruthy userId = false ∨ AppRoute.fieldTruthy inputText = false →
      AppRoute.conversationGate userId inputText sessionId =
        AppRoute.RouteOutcome.badRequest "userId and inputText required") ∧
    (∀ (persona : PersonaMgr.Persona) (stSize : Nat) (mem : Orchestrator.MemState)
      (llm : Nat → String → Except String String) (now : Nat)
      (userId inputText sessionId : String),
      (JsStr.jsTrim inputText).isEmpty = true ∨ inputText.length > 2000 →
      (Orchestrator.processConversation persona stSize mem llm now userId inputText
        sessionId).success = false ∧
      (Orchestrator.processConversation persona stSize mem llm now userId inputText
        sessionId).llmPrompts = [] ∧
      (Orchestrator.processConversation persona stSize mem llm now userId inputText
        sessionId).memOut = mem ∧
      (Orchestrator.processConversation persona stSize mem llm now userId inputText
        sessionId).response = none) := by
  constructor
  · intro userId inputText sessionId h
    unfold AppRoute.conversationGate
    rcases h with h | h <;> simp [h]
  · intro persona stSize mem llm now userId inputText sessionId h
    have hinv : (Orchestrator.validateInput inputText).isValid = false := by
      unfold Orchestrator.validateInput
      rcases h with h | h
      · simp [h]
      · by_cases htrim : (JsStr.jsTrim inputText).isEmpty <;> simp [htrim, h]
    simp only [Orchestrator.processConversation]
    rw [hinv]
    simp

/-- Witness for C9 (amended): a missing `userId` is answered with the 400
error, and a 2001-character input fails `processConversation` without any
backend call or memory write. -/
theorem C9_witness :
    AppRoute.conversationGate none (some "hello") none =
      AppRoute.RouteOutcome.badRequest "userId and inputText required" ∧
    (Orchestrator.processConversation demoPersona 10 ⟨[], []⟩ demoLLM 0 "u1"
      longInput "s1").success = false ∧
    (Orchestrator.processConversation demoPersona 10 ⟨[], []⟩ demoLLM 0 "u1"
      longInput "s1").llmPrompts = [] ∧
    (Orchestrator.processConversation demoPersona 10 ⟨[], []⟩ demoLLM 0 "u1"
      longInput "s1").memOut = ⟨[], []⟩ := by
  have h2 := C9_input_rejection.2 demoPersona 10 ⟨[], []⟩ demoLLM 0 "u1"
    longInput "s1" (Or.inr (by rw [longInput_length]; omega))
  exact ⟨C9_input_rejection.1 none (some "hello") none (Or.inl (by decide)),
    h2.1, h2.2.1, h2.2.2.1⟩
